import Mathlib

/-!
Verification of the overtime-to-leave entitlement engine of the `noah` HR
service: the pure entitlement calculator (`api_utils/overtime.py`), the
leave-type eligibility predicate (`api_utils/leave.py`), and the ledger
operations of the overtime router (`routers/overtime.py`): preview, create,
approve, reject.

Modelling conventions:
* Python floats are modelled as exact rationals (`ℚ`); the quantities involved
  (hours, the multipliers 1.5 and 2.0, divisions by 8) are the business-level
  reals the code manipulates.
* Python `datetime.date` is a `(year, month, day)` record; `date.weekday()`
  (Monday = 0 … Sunday = 6) is computed by Zeller's congruence.
* The database session is modelled by explicit state: the `overtime_leaves`
  ledger is a list of rows, `db.add` appends, and a raised `HTTPException`
  is `Except.error` (the handler raises before any mutation, so the state is
  returned only on success).
* Narrative strings built with f-strings are modelled structurally: a message
  constructor per branch, carrying exactly the numeric values the Python
  code interpolates into the string.
-/

/-- A `datetime.date`: calendar year, month (1–12), day (1–31). -/
structure OTDate where
  year : Nat
  month : Nat
  day : Nat
deriving DecidableEq, Repr

/-- Python's `date.weekday()`: Monday = 0 … Sunday = 6, via Zeller's
congruence (Zeller's `h` has Saturday = 0, so the index is `(h + 5) % 7`). -/
def OTDate.weekday (d : OTDate) : Nat :=
  let y := if d.month ≤ 2 then d.year - 1 else d.year
  let m := if d.month ≤ 2 then d.month + 12 else d.month
  let k := y % 100
  let j := y / 100
  let h := (d.day + 13 * (m + 1) / 5 + k + k / 4 + j / 4 + 5 * j) % 7
  (h + 5) % 7

/-- Python date comparison `a < b` (calendar order = lexicographic on
year, month, day for valid dates). -/
def OTDate.ltb (a b : OTDate) : Bool :=
  a.year < b.year ∨ (a.year = b.year ∧
    (a.month < b.month ∨ (a.month = b.month ∧ a.day < b.day)))

/-- The grade-tier sentence of the calculator's narrative
(`grade_rule_msg` in `calculate_overtime_entitlement`). -/
inductive GradeRuleMsg where
  /-- Sentence "All OT hours are counted." (grades 1–3). -/
  | allCounted : GradeRuleMsg
  /-- Sentence "Only first 4 hours counted for entitlement; extra {hours-4:.2f}h
  ignored." (grades 4–5, more than 4 hours claimed). -/
  | extraIgnored (extra : ℚ) : GradeRuleMsg
  /-- Sentence "Max 4 OT hours per day counted." (grades 4–5, at most 4 hours). -/
  | maxFourCounted : GradeRuleMsg
  /-- Sentence "Unknown grade. No entitlement." -/
  | unknownGrade : GradeRuleMsg
deriving DecidableEq, Repr

/-- The calculator's `message` field. -/
inductive CalcMessage where
  /-- Message "This request would bring your total OT leave days to {leave_days},
  but the maximum allowed is 9 per year. …" -/
  | capExceeded (leaveDays : ℤ) : CalcMessage
  /-- Message "This request will grant you {entitled_hours} entitled OT hours,
  which is {entitled_hours/8} leave days upon approval. {grade_rule_msg}". -/
  | normal (entitledHours : ℚ) (rule : GradeRuleMsg) : CalcMessage
deriving DecidableEq, Repr

/-- The dict returned by `calculate_overtime_entitlement`. -/
structure EntitlementResult where
  entitled_hours : ℚ
  entitled_leave_days : ℚ
  capped : Bool
  message : CalcMessage
deriving DecidableEq, Repr

/-- Function `api_utils/overtime.py::calculate_overtime_entitlement`.  The `user`
argument of the Python function is unused by its body and is omitted;
`grade` is the value after Python's `int(grade)` coercion.  The Python local
`leave_days_capped = min(leave_days, 9)` is dead (never read) and is not
modelled.  `total_hours // 8` is float floor division, i.e. `Int.floor`. -/
def calculate_overtime_entitlement (date : OTDate) (hours : ℚ) (grade : ℤ)
    (year_total_hours : ℚ) : EntitlementResult :=
  let weekday := date.weekday
  let is_weekend := decide (weekday ≥ 5)
  let multiplier : ℚ := if is_weekend then 2 else 3/2
  let entitled_hours : ℚ :=
    if grade = 1 ∨ grade = 2 ∨ grade = 3 then hours * multiplier
    else if grade = 4 ∨ grade = 5 then min hours 4 * multiplier
    else 0
  let grade_rule_msg : GradeRuleMsg :=
    if grade = 1 ∨ grade = 2 ∨ grade = 3 then .allCounted
    else if grade = 4 ∨ grade = 5 then
      if hours > 4 then .extraIgnored (hours - 4) else .maxFourCounted
    else .unknownGrade
  let total_hours := year_total_hours + entitled_hours
  let leave_days : ℤ := Int.floor (total_hours / 8)
  let capped := decide (leave_days > 9)
  let message : CalcMessage :=
    if capped then .capExceeded leave_days
    else .normal entitled_hours grade_rule_msg
  { entitled_hours := entitled_hours
    entitled_leave_days := entitled_hours / 8
    capped := capped
    message := message }

/-- The attributes of `models.User` the engine reads (`models.py`): the
grade used by the calculator, the manager reference checked by
approve/reject, and the gender/religion strings read by the leave-type
eligibility predicate.  `manager_id` is a nullable foreign key. -/
structure UserRec where
  id : ℤ
  grade : ℤ
  manager_id : Option ℤ
  gender : Option String
  religion : Option String
deriving DecidableEq, Repr

/-- A row of the `overtime_leaves` ledger (`models.OvertimeLeave`); the
autoincrement primary key and the server-side timestamp are not read by any
engine logic and are omitted. -/
structure OvertimeLeaveRow where
  user_id : ℤ
  overtime_request_id : ℤ
  year : Nat
  ot_hours : ℚ
  leave_days : ℚ
deriving DecidableEq, Repr

/-- The `approver_comments` column after an engine write, modelled
structurally.  Each constructor carries the base comment (Python's
`approver_comments or ""`) and the numeric values the f-string interpolates. -/
inductive ApproverComment where
  /-- Comment stored verbatim by `reject_overtime_request`. -/
  | plain (s : String) : ApproverComment
  /-- base + "\nAuto-rejected: No entitled leave days for this request." -/
  | autoRejectedNoEntitlement (base : String) : ApproverComment
  /-- base + "\nPartial approval: Only {grantable_days} leave days
  ({grantable_hours} OT hours) granted to reach the 9-day cap.
  {extra_days} leave days ({extra_hours} OT hours) … not converted …" -/
  | partialApproval (base : String) (grantableDays grantableHours extraDays extraHours : ℚ) :
      ApproverComment
  /-- base + "\nAuto-rejected: Approving this request would exceed the
  maximum of 9 OT leave days per year. …" -/
  | autoRejectedCap (base : String) : ApproverComment
  /-- base + "\n" + the calculator's message (full approval). -/
  | fullApproval (base : String) (msg : CalcMessage) : ApproverComment
deriving DecidableEq, Repr

/-- A row of `overtime_requests` (`models.OvertimeRequest`); timestamps are
DB-managed and omitted. -/
structure OvertimeRequestRec where
  id : ℤ
  user_id : ℤ
  date : OTDate
  hours : ℚ
  reason : Option String
  status : String
  approver_comments : Option ApproverComment
  attachment_id : Option ℤ
deriving DecidableEq, Repr

/-- A raised `HTTPException`, by status code, with its `detail` string. -/
inductive ApiError where
  | notFound (detail : String) : ApiError
  | forbidden (detail : String) : ApiError
  | badRequest (detail : String) : ApiError
deriving DecidableEq, Repr

/-- Query `SELECT coalesce(sum(leave_days), 0) FROM overtime_leaves WHERE
user_id = uid AND year = y` — the prior-total query both preview and
approve issue. -/
def yearTotal (ledger : List OvertimeLeaveRow) (uid : ℤ) (y : Nat) : ℚ :=
  ((ledger.filter fun r => r.user_id = uid ∧ r.year = y).map
    fun r => r.leave_days).sum

/-- Handler `routers/overtime.py::approve_overtime_request`.  `current_user` is the
authenticated approver, `req_user` is `db_request.user` (the owner of the
request).  On success returns the updated request and the ledger after the
commit (`db.add` appends a row); a raised `HTTPException` is `.error`, and
since every raise happens before any mutation, the pre-state is unchanged
in that case.  The 404 branch (request id not found) is DB-lookup plumbing
and is outside this model: the request row itself is the argument. -/
def approve_overtime_request (current_user req_user : UserRec)
    (db_request : OvertimeRequestRec) (ledger : List OvertimeLeaveRow)
    (approver_comments : Option String) :
    Except ApiError (OvertimeRequestRec × List OvertimeLeaveRow) :=
  if req_user.manager_id ≠ some current_user.id then
    .error (.forbidden "You can only approve overtime requests for your direct subordinates")
  else if db_request.status ≠ "pending" then
    .error (.badRequest ("Request is already " ++ db_request.status))
  else
    let year := db_request.date.year
    let total_leave_days := yearTotal ledger db_request.user_id year
    let result := calculate_overtime_entitlement db_request.date db_request.hours req_user.grade 0
    let request_leave_days := result.entitled_leave_days
    let request_hours := result.entitled_hours
    let new_total := total_leave_days + request_leave_days
    if request_leave_days ≤ 0 then
      .ok ({ db_request with
               status := "rejected"
               approver_comments :=
                 some (.autoRejectedNoEntitlement (approver_comments.getD "")) },
            ledger)
    else if new_total > 9 then
      let grantable_days := max 0 (9 - total_leave_days)
      if grantable_days > 0 then
        let grantable_hours := grantable_days * 8
        let overtime_leave : OvertimeLeaveRow :=
          { user_id := db_request.user_id
            overtime_request_id := db_request.id
            year := year
            ot_hours := grantable_hours
            leave_days := grantable_days }
        let extra_days := request_leave_days - grantable_days
        let extra_hours := request_hours - grantable_hours
        .ok ({ db_request with
                 status := "approved"
                 approver_comments :=
                   some (.partialApproval (approver_comments.getD "")
                     grantable_days grantable_hours extra_days extra_hours) },
              ledger ++ [overtime_leave])
      else
        .ok ({ db_request with
                 status := "rejected"
                 approver_comments := some (.autoRejectedCap (approver_comments.getD "")) },
              ledger)
    else
      let overtime_leave : OvertimeLeaveRow :=
        { user_id := db_request.user_id
          overtime_request_id := db_request.id
          year := year
          ot_hours := request_hours
          leave_days := request_leave_days }
      .ok ({ db_request with
               status := "approved"
               approver_comments := some (.fullApproval (approver_comments.getD "") result.message) },
            ledger ++ [overtime_leave])

/-- Handler `routers/overtime.py::reject_overtime_request`.  Touches only the
request row (status and comments); it never reads or writes the ledger,
so the ledger is not part of its state.  The stored comment is the
caller's comment verbatim (possibly null). -/
def reject_overtime_request (current_user req_user : UserRec)
    (db_request : OvertimeRequestRec) (approver_comments : Option String) :
    Except ApiError OvertimeRequestRec :=
  if req_user.manager_id ≠ some current_user.id then
    .error (.forbidden "You can only reject overtime requests for your direct subordinates")
  else if db_request.status ≠ "pending" then
    .error (.badRequest ("Request is already " ++ db_request.status))
  else
    .ok { db_request with
            status := "rejected"
            approver_comments := approver_comments.map .plain }

/-- The message returned by the preview and create endpoints: either the
calculator's own message, or — when the projected yearly total exceeds 9 —
the over-cap warning "Submitting this overtime request would exceed the
maximum of 9 OT leave days per year. Your request will be auto-rejected. …". -/
inductive PreviewMessage where
  | capWarning : PreviewMessage
  | calcMsg (m : CalcMessage) : PreviewMessage
deriving DecidableEq, Repr

/-- Schema `schemas.OvertimePreviewResponse`. -/
structure PreviewResponse where
  entitled_hours : ℚ
  entitled_leave_days : ℚ
  capped : Bool
  message : PreviewMessage
deriving DecidableEq, Repr

/-- Handler `routers/overtime.py::preview_overtime_request`.  `today` is
`datetime.now().date()`; `requests` is the `overtime_requests` table, read
for the one-request-per-day check.  Compute-only: no state is returned. -/
def preview_overtime_request (today : OTDate) (current_user : UserRec)
    (requests : List OvertimeRequestRec) (ledger : List OvertimeLeaveRow)
    (reqDate : OTDate) (reqHours : ℚ) : Except ApiError PreviewResponse :=
  if OTDate.ltb today reqDate then
    .error (.badRequest "Cannot preview overtime for a future date.")
  else
    match requests.find? fun r => r.user_id = current_user.id ∧ r.date = reqDate with
    | some existing =>
        .error (.badRequest ("Cannot preview overtime: a request (ID " ++
          toString existing.id ++ ") already exists for this date."))
    | none =>
        let year := reqDate.year
        let total_ot_leave := yearTotal ledger current_user.id year
        let result := calculate_overtime_entitlement reqDate reqHours current_user.grade 0
        let new_total := total_ot_leave + result.entitled_leave_days
        let message :=
          if new_total > 9 then PreviewMessage.capWarning
          else PreviewMessage.calcMsg result.message
        .ok { entitled_hours := result.entitled_hours
              entitled_leave_days := result.entitled_leave_days
              capped := result.capped
              message := message }

/-- Schema `schemas.AttachmentCreate`. -/
structure AttachmentCreate where
  fileName : String
  fileType : String
  fileDesc : Option String
  fileData : String
deriving DecidableEq, Repr

/-- A row of the `attachments` table, with the id assigned at `db.flush()`. -/
structure AttachmentRow where
  id : ℤ
  file_name : String
  file_type : String
  file_desc : Option String
  file_data : String
deriving DecidableEq, Repr

/-- The post-commit state and response of `create_overtime_request`. -/
structure CreateResult where
  requests : List OvertimeRequestRec
  attachments : List AttachmentRow
  ledger : List OvertimeLeaveRow
  request : OvertimeRequestRec
  message : PreviewMessage
deriving DecidableEq, Repr

/-- Handler `routers/overtime.py::create_overtime_request`.  `newRequestId` and
`newAttachmentId` model the autoincrement ids the database assigns.  The new
row's `status` is the column default `"pending"` (`models.py`,
`OvertimeRequest.status`), since the handler never sets it.  The function
reads the ledger only for the projected-total message; the returned ledger
is the input ledger. -/
def create_overtime_request (today : OTDate) (current_user : UserRec)
    (requests : List OvertimeRequestRec) (attachments : List AttachmentRow)
    (ledger : List OvertimeLeaveRow) (newRequestId newAttachmentId : ℤ)
    (reqDate : OTDate) (reqHours : ℚ) (reason : Option String)
    (attachment : Option AttachmentCreate) : Except ApiError CreateResult :=
  if OTDate.ltb today reqDate then
    .error (.badRequest "Cannot apply for overtime for a future date.")
  else
    match requests.find? fun r => r.user_id = current_user.id ∧ r.date = reqDate with
    | some existing =>
        .error (.badRequest ("Cannot apply for overtime: a request (ID " ++
          toString existing.id ++ ") already exists for this date."))
    | none =>
        let year := reqDate.year
        let total_ot_leave := yearTotal ledger current_user.id year
        let result := calculate_overtime_entitlement reqDate reqHours current_user.grade 0
        let new_total := total_ot_leave + result.entitled_leave_days
        let message :=
          if new_total > 9 then PreviewMessage.capWarning
          else PreviewMessage.calcMsg result.message
        let attachment_obj : Option AttachmentRow :=
          attachment.map fun a =>
            { id := newAttachmentId
              file_name := a.fileName
              file_type := a.fileType
              file_desc := a.fileDesc
              file_data := a.fileData }
        let db_request : OvertimeRequestRec :=
          { id := newRequestId
            user_id := current_user.id
            date := reqDate
            hours := reqHours
            reason := reason
            status := "pending"
            approver_comments := none
            attachment_id := attachment_obj.map fun a => a.id }
        .ok { requests := requests ++ [db_request]
              attachments := attachments ++ attachment_obj.toList
              ledger := ledger
              request := db_request
              message := message }

/-- Python `str.lower()`, character by character (the strings compared in
this codebase are ASCII, where Python's and `Char.toLower`'s behaviour
coincide). -/
def pyLower (s : String) : String := ⟨s.data.map Char.toLower⟩

/-- Python `str.strip()`: remove leading and trailing whitespace. -/
def pyStrip (s : String) : String :=
  ⟨((s.data.dropWhile fun c => c.isWhitespace).reverse.dropWhile
      fun c => c.isWhitespace).reverse⟩

/-- Python `x.strip().lower() if x else ""`: a falsy value (`None` or the
empty string) yields `""`, otherwise whitespace is stripped and the string
lowercased.  (For `""` both readings agree, so `getD` is exact.) -/
def normField (s : Option String) : String := pyLower (pyStrip (s.getD ""))

/-- Predicate `api_utils/leave.py::is_leave_type_eligible`.  The `religion` read is
guarded by `hasattr(user, 'religion')`, which always holds on `models.User`
(the column exists), so only the falsy check remains. -/
def is_leave_type_eligible (user : UserRec) (leave_type : String) : Bool :=
  let lt := pyLower leave_type
  let gender := normField user.gender
  let religion := normField user.religion
  if lt = "maternity" then gender = "female"
  else if lt = "paternity" then gender = "male"
  else if lt = "hajj" then religion = "muslim"
  else true

/-- One invocation of the approve endpoint: the approver, the request's
owner, the request row, and the approver's comment. -/
structure ApproveCall where
  current_user : UserRec
  req_user : UserRec
  request : OvertimeRequestRec
  comments : Option String
deriving Repr

/-- Run a sequence of approve operations against the ledger; a call that
raises (`.error`) leaves the ledger unchanged, a successful call commits
its new ledger. -/
def applyApprovals (ledger : List OvertimeLeaveRow) : List ApproveCall → List OvertimeLeaveRow
  | [] => ledger
  | c :: rest =>
    match approve_overtime_request c.current_user c.req_user c.request ledger c.comments with
    | .ok (_, ledger2) => applyApprovals ledger2 rest
    | .error _ => applyApprovals ledger rest

/-! ## Claims -/

/-- C4.  For every input on which the entitlement calculator returns, the
returned `entitled_leave_days` equals `entitled_hours / 8` by exact real
division (not floored). -/
theorem entitled_leave_days_is_exact_eighth (d : OTDate) (hours : ℚ) (grade : ℤ)
    (ytd : ℚ) :
    (calculate_overtime_entitlement d hours grade ytd).entitled_leave_days =
      (calculate_overtime_entitlement d hours grade ytd).entitled_hours / 8 := rfl

/-- C3.  The calculator uses multiplier 2.0 when the date's weekday index
(Monday = 0 … Sunday = 6) is ≥ 5 and 1.5 otherwise; for grades 1–3
`entitled_hours = hours_claimed × multiplier` with no grade cap, and for
grades 4–5 `entitled_hours = min(hours_claimed, 4) × multiplier`. -/
theorem entitlement_formula (d : OTDate) (hours : ℚ) (grade : ℤ) (ytd : ℚ)
    (hh : 0 ≤ hours) :
    ((grade = 1 ∨ grade = 2 ∨ grade = 3) →
      (calculate_overtime_entitlement d hours grade ytd).entitled_hours =
        hours * (if 5 ≤ d.weekday then (2 : ℚ) else 3/2)) ∧
    ((grade = 4 ∨ grade = 5) →
      (calculate_overtime_entitlement d hours grade ytd).entitled_hours =
        min hours 4 * (if 5 ≤ d.weekday then (2 : ℚ) else 3/2)) := by
  constructor <;> intro hg
  · simp only [calculate_overtime_entitlement, if_pos hg]
    by_cases hw : 5 ≤ d.weekday <;> simp [hw]
  · have hg3 : ¬(grade = 1 ∨ grade = 2 ∨ grade = 3) := by
      rcases hg with h | h <;> subst h <;> decide
    simp only [calculate_overtime_entitlement, if_neg hg3, if_pos hg]
    by_cases hw : 5 ≤ d.weekday <;> simp [hw]

/-- Witness for C3: grade 4, Monday 2024-01-01, 4 hours claimed yields 6.0
entitled hours; grade 5, Saturday 2024-01-06, 8 hours claimed yields 8.0. -/
theorem entitlement_formula_witness :
    (calculate_overtime_entitlement ⟨2024, 1, 1⟩ 4 4 0).entitled_hours = 6 ∧
    (calculate_overtime_entitlement ⟨2024, 1, 6⟩ 8 5 0).entitled_hours = 8 := by
  constructor
  · rw [(entitlement_formula ⟨2024, 1, 1⟩ 4 4 0 (by norm_num)).2 (Or.inl rfl)]
    norm_num [OTDate.weekday]
  · rw [(entitlement_formula ⟨2024, 1, 6⟩ 8 5 0 (by norm_num)).2 (Or.inr rfl)]
    norm_num [OTDate.weekday]

/-- C8.  Matching `leave_type` case-insensitively: "maternity" is eligible
iff the employee's gender normalizes to "female", "paternity" iff it
normalizes to "male", "hajj" iff the religion normalizes to "muslim"
(case- and whitespace-insensitively), and every other leave type is
eligible unconditionally.  The function is pure, so there are no side
effects. -/
theorem leave_type_eligibility_cases (u : UserRec) (lt : String) :
    (pyLower lt = "maternity" →
      (is_leave_type_eligible u lt = true ↔ normField u.gender = "female")) ∧
    (pyLower lt = "paternity" →
      (is_leave_type_eligible u lt = true ↔ normField u.gender = "male")) ∧
    (pyLower lt = "hajj" →
      (is_leave_type_eligible u lt = true ↔ normField u.religion = "muslim")) ∧
    (pyLower lt ≠ "maternity" → pyLower lt ≠ "paternity" → pyLower lt ≠ "hajj" →
      is_leave_type_eligible u lt = true) := by
  refine ⟨fun h => ?_, fun h => ?_, fun h => ?_, fun h1 h2 h3 => ?_⟩ <;>
    simp [is_leave_type_eligible, *]

/-- Witness for C8: leave type "MATERNITY" with gender " Female " (mixed
case, padded) is eligible. -/
theorem leave_type_eligibility_cases_witness :
    is_leave_type_eligible ⟨7, 2, some 1, some " Female ", some "Muslim"⟩ "MATERNITY" = true :=
  ((leave_type_eligibility_cases ⟨7, 2, some 1, some " Female ", some "Muslim"⟩
      "MATERNITY").1 (by decide)).mpr (by decide)

/-- C5.  For every grade value other than 1–5 the calculator returns
`entitled_hours = 0` and `entitled_leave_days = 0` (totally, without an
error), and the approve path then transitions the request to rejected with
the "no entitled leave days" note regardless of date and hours, writing no
ledger row. -/
theorem unknown_grade_silent_zero :
    (∀ (d : OTDate) (hours ytd : ℚ) (grade : ℤ),
      ¬(grade = 1 ∨ grade = 2 ∨ grade = 3 ∨ grade = 4 ∨ grade = 5) →
      (calculate_overtime_entitlement d hours grade ytd).entitled_hours = 0 ∧
      (calculate_overtime_entitlement d hours grade ytd).entitled_leave_days = 0) ∧
    (∀ (cu ru : UserRec) (req : OvertimeRequestRec) (ledger : List OvertimeLeaveRow)
      (c : Option String),
      ru.manager_id = some cu.id → req.status = "pending" →
      ¬(ru.grade = 1 ∨ ru.grade = 2 ∨ ru.grade = 3 ∨ ru.grade = 4 ∨ ru.grade = 5) →
      approve_overtime_request cu ru req ledger c =
        Except.ok ({ req with
            status := "rejected"
            approver_comments :=
              some (ApproverComment.autoRejectedNoEntitlement (c.getD "")) },
          ledger)) := by
  have hcalc : ∀ (d : OTDate) (hours ytd : ℚ) (grade : ℤ),
      ¬(grade = 1 ∨ grade = 2 ∨ grade = 3 ∨ grade = 4 ∨ grade = 5) →
      (calculate_overtime_entitlement d hours grade ytd).entitled_hours = 0 ∧
      (calculate_overtime_entitlement d hours grade ytd).entitled_leave_days = 0 := by
    intro d hours ytd grade hg
    have h123 : ¬(grade = 1 ∨ grade = 2 ∨ grade = 3) := by tauto
    have h45 : ¬(grade = 4 ∨ grade = 5) := by tauto
    constructor <;> simp [calculate_overtime_entitlement, if_neg h123, if_neg h45]
  refine ⟨hcalc, fun cu ru req ledger c hm hp hg => ?_⟩
  have hdays := (hcalc req.date req.hours 0 ru.grade hg).2
  simp only [approve_overtime_request]
  rw [if_neg (by simp [hm]), if_neg (by simp [hp]), if_pos (le_of_eq hdays)]

/-- Witness for C5: grade 9 on a weekend with 8 hours claimed yields zero
entitlement, and approving such a pending request auto-rejects it and
leaves the ledger empty. -/
theorem unknown_grade_silent_zero_witness :
    (calculate_overtime_entitlement ⟨2024, 1, 6⟩ 8 9 0).entitled_hours = 0 ∧
    approve_overtime_request ⟨1, 3, none, none, none⟩ ⟨7, 9, some 1, none, none⟩
        ⟨2, 7, ⟨2024, 1, 6⟩, 8, none, "pending", none, none⟩ [] (some "ok") =
      Except.ok ({
          id := 2
          user_id := 7
          date := ⟨2024, 1, 6⟩
          hours := 8
          reason := none
          status := "rejected"
          approver_comments := some (ApproverComment.autoRejectedNoEntitlement "ok")
          attachment_id := none }, []) :=
  ⟨(unknown_grade_silent_zero.1 ⟨2024, 1, 6⟩ 8 0 9 (by decide)).1,
   unknown_grade_silent_zero.2 ⟨1, 3, none, none, none⟩ ⟨7, 9, some 1, none, none⟩
     ⟨2, 7, ⟨2024, 1, 6⟩, 8, none, "pending", none, none⟩ [] (some "ok")
     rfl rfl (by decide)⟩

/-- C7.  For every request whose status is not pending, both approve and
reject fail with the "Request is already {status}" state error; since the
handlers raise before mutating anything, the request row and the ledger are
unchanged (in this embedding, no post-state exists on `.error`), so each
request undergoes at most one `pending → {approved, rejected}` transition. -/
theorem non_pending_state_error (cu ru : UserRec) (req : OvertimeRequestRec)
    (ledger : List OvertimeLeaveRow) (c : Option String)
    (hm : ru.manager_id = some cu.id) (hnp : req.status ≠ "pending") :
    approve_overtime_request cu ru req ledger c =
      Except.error (ApiError.badRequest ("Request is already " ++ req.status)) ∧
    reject_overtime_request cu ru req c =
      Except.error (ApiError.badRequest ("Request is already " ++ req.status)) := by
  constructor <;>
  · simp only [approve_overtime_request, reject_overtime_request]
    rw [if_neg (by simp [hm]), if_pos hnp]

/-- Witness for C7: a second approve or reject of an already-approved
request fails with the state error. -/
theorem non_pending_state_error_witness :
    approve_overtime_request ⟨1, 3, none, none, none⟩ ⟨7, 2, some 1, none, none⟩
        ⟨2, 7, ⟨2024, 1, 6⟩, 4, none, "approved", none, none⟩ [] none =
      Except.error (ApiError.badRequest "Request is already approved") ∧
    reject_overtime_request ⟨1, 3, none, none, none⟩ ⟨7, 2, some 1, none, none⟩
        ⟨2, 7, ⟨2024, 1, 6⟩, 4, none, "approved", none, none⟩ none =
      Except.error (ApiError.badRequest "Request is already approved") := by
  have h := non_pending_state_error ⟨1, 3, none, none, none⟩ ⟨7, 2, some 1, none, none⟩
      ⟨2, 7, ⟨2024, 1, 6⟩, 4, none, "approved", none, none⟩ [] none rfl (by decide)
  exact h

/-- C6.  On approve of a pending request with positive entitled leave days,
if the prior ledger total for the employee and year is already ≥ 9 (so
`grantable_days = max(0, 9 − prior_total) = 0`), the request is rejected
with the auto-rejection note citing the cap and no ledger row is written. -/
theorem at_cap_auto_rejection (cu ru : UserRec) (req : OvertimeRequestRec)
    (ledger : List OvertimeLeaveRow) (c : Option String)
    (hm : ru.manager_id = some cu.id) (hp : req.status = "pending")
    (hpos : 0 < (calculate_overtime_entitlement req.date req.hours ru.grade 0).entitled_leave_days)
    (hcap : 9 ≤ yearTotal ledger req.user_id req.date.year) :
    approve_overtime_request cu ru req ledger c =
      Except.ok ({ req with
          status := "rejected"
          approver_comments := some (ApproverComment.autoRejectedCap (c.getD "")) },
        ledger) := by
  simp only [approve_overtime_request]
  rw [if_neg (by simp [hm]), if_neg (by simp [hp]), if_neg (not_le.mpr hpos),
    if_pos (by linarith), if_neg (not_lt.mpr (max_le le_rfl (by linarith)))]

/-- Witness for C6: prior total exactly 9.0; a further request entitled to
1.0 leave day is auto-rejected and the ledger still holds its single row. -/
theorem at_cap_auto_rejection_witness :
    approve_overtime_request ⟨1, 3, none, none, none⟩ ⟨7, 2, some 1, none, none⟩
        ⟨2, 7, ⟨2024, 1, 6⟩, 4, none, "pending", none, none⟩
        [⟨7, 1, 2024, 72, 9⟩] (some "hi") =
      Except.ok ({
          id := 2
          user_id := 7
          date := ⟨2024, 1, 6⟩
          hours := 4
          reason := none
          status := "rejected"
          approver_comments := some (ApproverComment.autoRejectedCap "hi")
          attachment_id := none }, [⟨7, 1, 2024, 72, 9⟩]) := by
  have h := at_cap_auto_rejection ⟨1, 3, none, none, none⟩ ⟨7, 2, some 1, none, none⟩
      ⟨2, 7, ⟨2024, 1, 6⟩, 4, none, "pending", none, none⟩ [⟨7, 1, 2024, 72, 9⟩]
      (some "hi") rfl rfl
      (by norm_num [calculate_overtime_entitlement, OTDate.weekday])
      (by norm_num [yearTotal])
  exact h

/-- C2.  On approve of a pending request with positive entitled leave days,
when `prior_total + request_leave_days > 9` and
`grantable_days = 9 − prior_total > 0`, exactly one ledger row is written
with `leave_days = grantable_days` and `ot_hours = grantable_days × 8`, the
request becomes approved, and the comment records the forfeited remainder
`request_leave_days − grantable_days` (with the corresponding hours). -/
theorem partial_grant_arithmetic (cu ru : UserRec) (req : OvertimeRequestRec)
    (ledger : List OvertimeLeaveRow) (c : Option String)
    (hm : ru.manager_id = some cu.id) (hp : req.status = "pending")
    (hpos : 0 < (calculate_overtime_entitlement req.date req.hours ru.grade 0).entitled_leave_days)
    (hover : 9 < yearTotal ledger req.user_id req.date.year +
      (calculate_overtime_entitlement req.date req.hours ru.grade 0).entitled_leave_days)
    (hroom : yearTotal ledger req.user_id req.date.year < 9) :
    approve_overtime_request cu ru req ledger c =
      Except.ok ({ req with
          status := "approved"
          approver_comments := some (ApproverComment.partialApproval (c.getD "")
            (9 - yearTotal ledger req.user_id req.date.year)
            ((9 - yearTotal ledger req.user_id req.date.year) * 8)
            ((calculate_overtime_entitlement req.date req.hours ru.grade 0).entitled_leave_days -
              (9 - yearTotal ledger req.user_id req.date.year))
            ((calculate_overtime_entitlement req.date req.hours ru.grade 0).entitled_hours -
              (9 - yearTotal ledger req.user_id req.date.year) * 8)) },
        ledger ++ [{
          user_id := req.user_id
          overtime_request_id := req.id
          year := req.date.year
          ot_hours := (9 - yearTotal ledger req.user_id req.date.year) * 8
          leave_days := 9 - yearTotal ledger req.user_id req.date.year }]) := by
  have hmax : max (0 : ℚ) (9 - yearTotal ledger req.user_id req.date.year) =
      9 - yearTotal ledger req.user_id req.date.year := max_eq_right (by linarith)
  simp only [approve_overtime_request]
  rw [if_neg (by simp [hm]), if_neg (by simp [hp]), if_neg (not_le.mpr hpos),
    if_pos hover, if_pos (lt_max_iff.mpr (Or.inr (by linarith))), hmax]

/-- Witness for C2: prior total 8.5 days, a Saturday request of 4 hours at
grade 2 (entitled to 8 hours = 1.0 leave day) is partially approved: the
single new ledger row records 0.5 days / 4.0 OT hours and the comment
records the forfeited 0.5 days / 4.0 hours. -/
theorem partial_grant_arithmetic_witness :
    approve_overtime_request ⟨1, 3, none, none, none⟩ ⟨7, 2, some 1, none, none⟩
        ⟨2, 7, ⟨2024, 1, 6⟩, 4, none, "pending", none, none⟩
        [⟨7, 1, 2024, 68, 17/2⟩] none =
      Except.ok ({
          id := 2
          user_id := 7
          date := ⟨2024, 1, 6⟩
          hours := 4
          reason := none
          status := "approved"
          approver_comments :=
            some (ApproverComment.partialApproval "" (1/2) 4 (1/2) 4)
          attachment_id := none },
        [⟨7, 1, 2024, 68, 17/2⟩, ⟨7, 2, 2024, 4, 1/2⟩]) := by
  have h := partial_grant_arithmetic ⟨1, 3, none, none, none⟩ ⟨7, 2, some 1, none, none⟩
      ⟨2, 7, ⟨2024, 1, 6⟩, 4, none, "pending", none, none⟩
      [⟨7, 1, 2024, 68, 17/2⟩] none rfl rfl
      (by norm_num [calculate_overtime_entitlement, OTDate.weekday])
      (by norm_num [calculate_overtime_entitlement, OTDate.weekday, yearTotal])
      (by norm_num [yearTotal])
  rw [h]
  norm_num [calculate_overtime_entitlement, OTDate.weekday, yearTotal]

lemma yearTotal_append (L1 L2 : List OvertimeLeaveRow) (u : ℤ) (y : Nat) :
    yearTotal (L1 ++ L2) u y = yearTotal L1 u y + yearTotal L2 u y := by
  simp [yearTotal, List.filter_append]

lemma yearTotal_singleton (r : OvertimeLeaveRow) (u : ℤ) (y : Nat) :
    yearTotal [r] u y = if r.user_id = u ∧ r.year = y then r.leave_days else 0 := by
  by_cases h : r.user_id = u ∧ r.year = y <;> simp [yearTotal, h]

/-- A successful approve either leaves the ledger unchanged or appends one
row for the request's employee and year, with positive granted days, whose
addition keeps that employee-year total within 9. -/
lemma approve_ok_ledger (cu ru : UserRec) (req : OvertimeRequestRec)
    (ledger : List OvertimeLeaveRow) (c : Option String)
    (req2 : OvertimeRequestRec) (ledger2 : List OvertimeLeaveRow)
    (h : approve_overtime_request cu ru req ledger c = Except.ok (req2, ledger2)) :
    ledger2 = ledger ∨
    ∃ row : OvertimeLeaveRow, ledger2 = ledger ++ [row] ∧
      row.user_id = req.user_id ∧ row.year = req.date.year ∧ 0 < row.leave_days ∧
      yearTotal ledger req.user_id req.date.year + row.leave_days ≤ 9 := by
  simp only [approve_overtime_request] at h
  split_ifs at h with h1 h2 h3 h4 h5
  · rw [Except.ok.injEq, Prod.mk.injEq] at h
    exact Or.inl h.2.symm
  · rw [Except.ok.injEq, Prod.mk.injEq] at h
    have hx : (0 : ℚ) < 9 - yearTotal ledger req.user_id req.date.year := by
      rcases lt_max_iff.mp h5 with h' | h'
      · exact absurd h' (lt_irrefl 0)
      · exact h'
    refine Or.inr ⟨_, h.2.symm, rfl, rfl, h5, ?_⟩
    rw [max_eq_right hx.le]
    show yearTotal ledger req.user_id req.date.year +
      (9 - yearTotal ledger req.user_id req.date.year) ≤ 9
    linarith
  · rw [Except.ok.injEq, Prod.mk.injEq] at h
    exact Or.inl h.2.symm
  · rw [Except.ok.injEq, Prod.mk.injEq] at h
    exact Or.inr ⟨_, h.2.symm, rfl, rfl, not_le.mp h3, not_lt.mp h4⟩

/-- One successful approve preserves the ≤ 9 bound on every employee-year
ledger total. -/
lemma approve_cap_step (cu ru : UserRec) (req : OvertimeRequestRec)
    (ledger : List OvertimeLeaveRow) (c : Option String)
    (req2 : OvertimeRequestRec) (ledger2 : List OvertimeLeaveRow)
    (h : approve_overtime_request cu ru req ledger c = Except.ok (req2, ledger2))
    (u : ℤ) (y : Nat) (hb : yearTotal ledger u y ≤ 9) : yearTotal ledger2 u y ≤ 9 := by
  rcases approve_ok_ledger cu ru req ledger c req2 ledger2 h with
    hEq | ⟨row, hEq, hu, hy, hpos, hsum⟩
  · rw [hEq]; exact hb
  · rw [hEq, yearTotal_append, yearTotal_singleton]
    split_ifs with hmatch
    · obtain ⟨hmu, hmy⟩ := hmatch
      cases hmu
      cases hmy
      rw [hu, hy]
      exact hsum
    · simpa using hb

/-- C1.  Yearly-cap ledger invariant: starting from the empty ledger, after
every sequence of approve operations the sum of `leave_days` for every
employee and year is at most 9; moreover whenever an approve writes a
ledger row, the employee-year total becomes exactly
`min (prior_total + request_entitled_days) 9` — the full-grant branch
writes only when `prior_total + entitled ≤ 9`, and the partial branch
writes exactly enough days to reach 9. -/
theorem yearly_cap_invariant :
    (∀ (calls : List ApproveCall) (u : ℤ) (y : Nat),
      yearTotal (applyApprovals [] calls) u y ≤ 9) ∧
    (∀ (cu ru : UserRec) (req : OvertimeRequestRec) (ledger : List OvertimeLeaveRow)
      (c : Option String) (req2 : OvertimeRequestRec) (ledger2 : List OvertimeLeaveRow),
      approve_overtime_request cu ru req ledger c = Except.ok (req2, ledger2) →
      ledger2 ≠ ledger →
      yearTotal ledger2 req.user_id req.date.year =
        min (yearTotal ledger req.user_id req.date.year +
          (calculate_overtime_entitlement req.date req.hours ru.grade 0).entitled_leave_days)
          9) := by
  constructor
  · have main : ∀ (calls : List ApproveCall) (ledger : List OvertimeLeaveRow),
        (∀ u y, yearTotal ledger u y ≤ 9) →
        ∀ u y, yearTotal (applyApprovals ledger calls) u y ≤ 9 := by
      intro calls
      induction calls with
      | nil => intro ledger hb u y; simpa [applyApprovals] using hb u y
      | cons a rest ih =>
        intro ledger hb u y
        simp only [applyApprovals]
        rcases hval : approve_overtime_request a.current_user a.req_user a.request
            ledger a.comments with e | ⟨r2, l2⟩
        · exact ih ledger hb u y
        · exact ih l2
            (fun u' y' => approve_cap_step a.current_user a.req_user a.request
              ledger a.comments r2 l2 hval u' y' (hb u' y')) u y
    exact fun calls u y => main calls [] (fun u' y' => by simp [yearTotal]) u y
  · intro cu ru req ledger c req2 ledger2 h hne
    simp only [approve_overtime_request] at h
    split_ifs at h with h1 h2 h3 h4 h5
    · rw [Except.ok.injEq, Prod.mk.injEq] at h
      exact absurd h.2.symm hne
    · rw [Except.ok.injEq, Prod.mk.injEq] at h
      have hx : (0 : ℚ) < 9 - yearTotal ledger req.user_id req.date.year := by
        rcases lt_max_iff.mp h5 with h' | h'
        · exact absurd h' (lt_irrefl 0)
        · exact h'
      rw [← h.2, yearTotal_append, yearTotal_singleton, if_pos ⟨rfl, rfl⟩,
        max_eq_right hx.le, min_eq_right h4.le]
      ring
    · rw [Except.ok.injEq, Prod.mk.injEq] at h
      exact absurd h.2.symm hne
    · rw [Except.ok.injEq, Prod.mk.injEq] at h
      rw [← h.2, yearTotal_append, yearTotal_singleton, if_pos ⟨rfl, rfl⟩,
        min_eq_left (not_lt.mp h4)]

/-- Witness for C1: a single full approval (Saturday, grade 2, 4 hours = 1.0
entitled day) on the empty ledger makes the employee-year total
`min (0 + 1) 9 = 1`. -/
theorem yearly_cap_invariant_witness :
    yearTotal [⟨7, 2, 2024, 8, 1⟩] 7 2024 =
      min (yearTotal [] 7 2024 +
        (calculate_overtime_entitlement ⟨2024, 1, 6⟩ 4 2 0).entitled_leave_days) 9 := by
  refine yearly_cap_invariant.2 ⟨1, 3, none, none, none⟩ ⟨7, 2, some 1, none, none⟩
      ⟨2, 7, ⟨2024, 1, 6⟩, 4, none, "pending", none, none⟩ [] none
      ({ id := 2
         user_id := 7
         date := ⟨2024, 1, 6⟩
         hours := 4
         reason := none
         status := "approved"
         approver_comments := some (ApproverComment.fullApproval ""
           (CalcMessage.normal 8 GradeRuleMsg.allCounted))
         attachment_id := none })
      [⟨7, 2, 2024, 8, 1⟩] ?_ (List.cons_ne_nil _ _)
  norm_num [approve_overtime_request, calculate_overtime_entitlement, OTDate.weekday,
    yearTotal]

lemma floor_div8_gt9_iff (x : ℚ) : 9 < Int.floor (x / 8) ↔ 80 ≤ x := by
  rw [Int.lt_iff_add_one_le, Int.le_floor, le_div_iff₀ (by norm_num : (0 : ℚ) < 8)]
  norm_num

lemma calc_capped_eq (d : OTDate) (hours : ℚ) (grade : ℤ) (ytd : ℚ) :
    (calculate_overtime_entitlement d hours grade ytd).capped =
      decide (9 < Int.floor ((ytd +
        (calculate_overtime_entitlement d hours grade ytd).entitled_hours) / 8)) := rfl

/-- C9.  The `capped` flag returned by the preview endpoint comes from the
calculator invoked with `year_total_hours = 0` and its floor-based hours
check: it is true iff `floor(entitled_hours / 8) > 9`, i.e. iff
`entitled_hours ≥ 80`.  Hence whenever `already_granted_days +
entitled_leave_days > 9` but `entitled_hours < 80`, preview returns
`capped = false` even though its message is the over-cap auto-reject
warning. -/
theorem preview_capped_floor_check (today : OTDate) (cu : UserRec)
    (requests : List OvertimeRequestRec) (ledger : List OvertimeLeaveRow)
    (d : OTDate) (hours : ℚ) (resp : PreviewResponse)
    (h : preview_overtime_request today cu requests ledger d hours = Except.ok resp) :
    (resp.capped = true ↔
      9 < Int.floor ((calculate_overtime_entitlement d hours cu.grade 0).entitled_hours / 8)) ∧
    (resp.capped = true ↔
      80 ≤ (calculate_overtime_entitlement d hours cu.grade 0).entitled_hours) ∧
    (9 < yearTotal ledger cu.id d.year +
        (calculate_overtime_entitlement d hours cu.grade 0).entitled_leave_days →
      (calculate_overtime_entitlement d hours cu.grade 0).entitled_hours < 80 →
      resp.capped = false ∧ resp.message = PreviewMessage.capWarning) := by
  simp only [preview_overtime_request] at h
  by_cases h1 : OTDate.ltb today d = true
  · rw [if_pos h1] at h
    exact Except.noConfusion h
  · rw [if_neg h1] at h
    rcases hfind : List.find? (fun r => decide (r.user_id = cu.id ∧ r.date = d)) requests
        with _ | ex
    swap
    · rw [hfind] at h
      exact Except.noConfusion h
    rw [hfind] at h
    have h2 := Except.ok.inj h
    subst h2
    have hcap : (calculate_overtime_entitlement d hours cu.grade 0).capped = true ↔
        9 < Int.floor ((calculate_overtime_entitlement d hours cu.grade 0).entitled_hours / 8) := by
      rw [calc_capped_eq, zero_add, decide_eq_true_eq]
    refine ⟨hcap, hcap.trans (floor_div8_gt9_iff _), fun hover hunder => ⟨?_, ?_⟩⟩
    · show (calculate_overtime_entitlement d hours cu.grade 0).capped = false
      rw [calc_capped_eq, zero_add]
      exact decide_eq_false ((floor_div8_gt9_iff _).not.mpr (not_le.mpr hunder))
    · show (if yearTotal ledger cu.id d.year +
          (calculate_overtime_entitlement d hours cu.grade 0).entitled_leave_days > 9
          then PreviewMessage.capWarning
          else PreviewMessage.calcMsg
            (calculate_overtime_entitlement d hours cu.grade 0).message) =
        PreviewMessage.capWarning
      rw [if_pos hover]

/-- Witness for C9: with 8.5 days already in the ledger, a Saturday grade-2
request of 8 hours (16 entitled hours = 2 days; projected total 10.5 > 9
but 16 < 80) previews as `capped = false` with the over-cap warning
message. -/
theorem preview_capped_floor_check_witness :
    PreviewResponse.capped ⟨16, 2, false, PreviewMessage.capWarning⟩ = false ∧
    PreviewResponse.message ⟨16, 2, false, PreviewMessage.capWarning⟩ =
      PreviewMessage.capWarning :=
  (preview_capped_floor_check ⟨2024, 6, 1⟩ ⟨7, 2, none, none, none⟩ []
      [⟨7, 1, 2024, 68, 17/2⟩] ⟨2024, 1, 6⟩ 8 ⟨16, 2, false, PreviewMessage.capWarning⟩
      (by norm_num [preview_overtime_request, calculate_overtime_entitlement,
        OTDate.weekday, OTDate.ltb, yearTotal])).2.2
    (by norm_num [calculate_overtime_entitlement, OTDate.weekday, yearTotal])
    (by norm_num [calculate_overtime_entitlement, OTDate.weekday])

/-- C10.  Successfully creating an overtime request always persists it with
status "pending" (the column default), with no approver comment, appended
to the requests table, and never writes a ledger row — even when the
projected yearly total exceeds the 9-day cap, which only switches the
returned message to the over-cap warning; no auto-rejection happens at
submission time. -/
theorem create_request_pending_no_ledger_write (today : OTDate) (cu : UserRec)
    (requests : List OvertimeRequestRec) (attachments : List AttachmentRow)
    (ledger : List OvertimeLeaveRow) (newRequestId newAttachmentId : ℤ)
    (d : OTDate) (hours : ℚ) (reason : Option String) (att : Option AttachmentCreate)
    (out : CreateResult)
    (h : create_overtime_request today cu requests attachments ledger newRequestId
      newAttachmentId d hours reason att = Except.ok out) :
    out.request.status = "pending" ∧
    out.ledger = ledger ∧
    out.requests = requests ++ [out.request] ∧
    out.request.approver_comments = none ∧
    (out.message = PreviewMessage.capWarning ↔
      9 < yearTotal ledger cu.id d.year +
        (calculate_overtime_entitlement d hours cu.grade 0).entitled_leave_days) := by
  simp only [create_overtime_request] at h
  by_cases h1 : OTDate.ltb today d = true
  · rw [if_pos h1] at h
    exact Except.noConfusion h
  · rw [if_neg h1] at h
    rcases hfind : List.find? (fun r => decide (r.user_id = cu.id ∧ r.date = d)) requests
        with _ | ex
    swap
    · rw [hfind] at h
      exact Except.noConfusion h
    rw [hfind] at h
    have h2 := Except.ok.inj h
    subst h2
    refine ⟨rfl, rfl, rfl, rfl, ?_⟩
    show (if yearTotal ledger cu.id d.year +
        (calculate_overtime_entitlement d hours cu.grade 0).entitled_leave_days > 9
        then PreviewMessage.capWarning
        else PreviewMessage.calcMsg
          (calculate_overtime_entitlement d hours cu.grade 0).message) =
      PreviewMessage.capWarning ↔ _
    by_cases hc : yearTotal ledger cu.id d.year +
        (calculate_overtime_entitlement d hours cu.grade 0).entitled_leave_days > 9 <;>
      simp [hc]

/-- Witness for C10: with 8.5 days already granted, creating a Saturday
grade-2 request of 8 hours (projected total 10.5 > 9) succeeds, stores the
request as "pending" with no comment, writes no ledger row, and returns the
over-cap warning message. -/
theorem create_request_pending_no_ledger_write_witness :
    OvertimeRequestRec.status ⟨11, 7, ⟨2024, 1, 6⟩, 8, none, "pending", none, none⟩ =
      "pending" ∧
    (PreviewMessage.capWarning = PreviewMessage.capWarning ↔
      9 < yearTotal [⟨7, 1, 2024, 68, 17/2⟩] 7 2024 +
        (calculate_overtime_entitlement ⟨2024, 1, 6⟩ 8 2 0).entitled_leave_days) := by
  have h := create_request_pending_no_ledger_write ⟨2024, 6, 1⟩ ⟨7, 2, none, none, none⟩
      [] [] [⟨7, 1, 2024, 68, 17/2⟩] 11 99 ⟨2024, 1, 6⟩ 8 none none
      ({ requests := [⟨11, 7, ⟨2024, 1, 6⟩, 8, none, "pending", none, none⟩]
         attachments := []
         ledger := [⟨7, 1, 2024, 68, 17/2⟩]
         request := ⟨11, 7, ⟨2024, 1, 6⟩, 8, none, "pending", none, none⟩
         message := PreviewMessage.capWarning })
      (by norm_num [create_overtime_request, calculate_overtime_entitlement,
        OTDate.weekday, OTDate.ltb, yearTotal])
  exact ⟨h.1, h.2.2.2.2⟩
